import Mathlib

set_option maxRecDepth 4000

namespace FlightDashboard

/-!
Shallow embedding of the flight-dashboard backend (Go): the city→state
resolver (`city_state_mapper.go`), the state aggregator (`state_aggregator.go`,
shipped here as an unnamed source part), the record store's per-state counter
(`flight_data_service.go`) and the HTTP handlers (`state_handlers.go`).

Go `map[string]T` values are modelled as insertion-ordered association lists;
lookup takes the most recent binding, matching Go's overwrite-on-insert.
Go string functions are embedded on their ASCII fragment, which is the
fragment the repository's city, state and airline names exercise.
-/

/-- Go `strings.ToLower` (ASCII fragment): lowercase every character. -/
def goToLower (s : String) : String := ⟨s.data.map Char.toLower⟩

/-- Go `unicode.IsSpace` on the ASCII characters Go treats as space. -/
def goIsSpaceChar (c : Char) : Bool :=
  c == ' ' || c == '\t' || c == '\n' || c == '\x0b' || c == '\x0c' || c == '\r'

/-- Go `strings.TrimSpace`: drop leading and trailing whitespace. -/
def goTrimSpace (s : String) : String :=
  ⟨((s.data.dropWhile goIsSpaceChar).reverse.dropWhile goIsSpaceChar).reverse⟩

/-- Go `isSeparator` from `strings.Title` (ASCII fragment): every ASCII
character other than alphanumerics and underscore separates words. -/
def goIsSeparatorChar (c : Char) : Bool :=
  if c.toNat ≤ 127 then !(c.isAlphanum || c == '_') else false

/-- One step of Go `strings.Title`: title-case a character when the previous
character was a separator (`sep` carries that state; the initial previous
character is a space, hence a separator). -/
def goTitleAux : Bool → List Char → List Char
  | _, [] => []
  | sep, c :: cs => (if sep then c.toUpper else c) :: goTitleAux (goIsSeparatorChar c) cs

/-- Go `strings.Title` (ASCII fragment; `unicode.ToTitle` is `toUpper` on
ASCII letters). -/
def goTitle (s : String) : String := ⟨goTitleAux true s.data⟩

/-- Go `strings.EqualFold` (ASCII fragment): case-insensitive equality. -/
def goEqualFold (a b : String) : Bool := goToLower a == goToLower b

/-! Character-level facts about the ASCII case maps. -/

theorem char_toNat_ofNat_of_lt {n : Nat} (h : n < 55296) : (Char.ofNat n).toNat = n := by
  rw [Char.ofNat, dif_pos (Or.inl h)]
  rfl

theorem char_eq_of_toNat_eq {a b : Char} (h : a.toNat = b.toNat) : a = b :=
  Char.ext (UInt32.toNat.inj h)

theorem char_toLower_toNat (c : Char) :
    c.toLower.toNat = if c.toNat ≥ 65 ∧ c.toNat ≤ 90 then c.toNat + 32 else c.toNat := by
  show (if c.toNat ≥ 65 ∧ c.toNat ≤ 90 then Char.ofNat (c.toNat + 32) else c).toNat = _
  split
  · next h => exact char_toNat_ofNat_of_lt (by omega)
  · rfl

theorem char_toUpper_toNat (c : Char) :
    c.toUpper.toNat = if c.toNat ≥ 97 ∧ c.toNat ≤ 122 then c.toNat - 32 else c.toNat := by
  show (if c.toNat ≥ 97 ∧ c.toNat ≤ 122 then Char.ofNat (c.toNat - 32) else c).toNat = _
  split
  · next h => exact char_toNat_ofNat_of_lt (by omega)
  · rfl

theorem char_toLower_toUpper_toLower (c : Char) :
    c.toLower.toUpper.toLower = c.toLower := by
  apply char_eq_of_toNat_eq
  rw [char_toLower_toNat, char_toUpper_toNat, char_toLower_toNat]
  split_ifs <;> omega

theorem char_toLower_toLower (c : Char) : c.toLower.toLower = c.toLower := by
  apply char_eq_of_toNat_eq
  rw [char_toLower_toNat, char_toLower_toNat]
  split_ifs <;> omega

theorem goTitleAux_map_toLower (sep : Bool) (l : List Char) :
    (goTitleAux sep (l.map Char.toLower)).map Char.toLower = l.map Char.toLower := by
  induction l generalizing sep with
  | nil => rfl
  | cons c cs ih =>
    simp only [List.map_cons, goTitleAux]
    refine congrArg₂ List.cons ?_ (ih _)
    split
    · exact char_toLower_toUpper_toLower c
    · exact char_toLower_toLower c

/-- Lowercasing undoes title-casing of an already lowercased string. -/
theorem goToLower_goTitle_goToLower (s : String) :
    goToLower (goTitle (goToLower s)) = goToLower s :=
  congrArg String.mk (goTitleAux_map_toLower true s.data)

/-! ### City→state resolver (`city_state_mapper.go`) -/

/-- Lookup in a Go `map[string]string` modelled as the insertion sequence:
the latest binding for a key wins (Go overwrites on insert). -/
def mapLookup (m : List (String × String)) (k : String) : Option String :=
  (m.reverse.find? (fun p => p.1 = k)).map Prod.snd

/-- `normalizeCityName`: trim, lowercase, then the hardcoded historical-name
rewrites. -/
def normalizeCityName (city : String) : String :=
  let normalized := goToLower (goTrimSpace city)
  if normalized = "bombay" then "mumbai"
  else if normalized = "new delhi" then "delhi"
  else if normalized = "calcutta" then "kolkata"
  else if normalized = "bangalore" then "bengaluru"
  else normalized

/-- The secondary alias table of `getCityAlias`. -/
def cityAliases : List (String × String) :=
  [("mumbai", "mumbai"), ("bombay", "mumbai"), ("delhi", "delhi"),
   ("new delhi", "delhi"), ("kolkata", "kolkata"), ("calcutta", "kolkata"),
   ("bengaluru", "bengaluru"), ("bangalore", "bengaluru"), ("madras", "chennai"),
   ("chennai", "chennai"), ("hyderabad", "hyderabad"), ("pondy", "puducherry"),
   ("ponducherry", "puducherry"), ("puducherry", "puducherry")]

/-- `getCityAlias`: alternative city names; empty string when absent. -/
def getCityAlias (city : String) : String :=
  ((cityAliases.find? (fun p => p.1 = city)).map Prod.snd).getD ""

/-- `GetStateForCity`: reject empty input, normalize, direct lookup, then the
alias retry; `none` models Go's `("", false)`. -/
def getStateForCity (m : List (String × String)) (city : String) : Option String :=
  if city = "" then none
  else
    let normalizedCity := normalizeCityName city
    match mapLookup m normalizedCity with
    | some state => some state
    | none =>
      let aliasName := getCityAlias normalizedCity
      if aliasName ≠ "" then mapLookup m aliasName
      else none

/-- `normalizeCityNameForMapping` (state aggregator's fallback normalizer). -/
def normalizeCityNameForMapping (city : String) : String :=
  goToLower (goTrimSpace city)

def andhraCities : List String :=
  ["amaravati", "visakhapatnam", "vijayawada", "guntur", "nellore", "kurnool", "rajahmundry", 
   "tirupati", "kakinada", "kadapa", "anantapur", "eluru", "ongole", "kadiri", "hindupur", 
   "proddatur", "bhimavaram", "gudivada", "rajampet", "tadepalligudem", "srikakulam", 
   "anakapalle", "nandyal", "suriapet", "adoni", "chittoor", "machilipatnam", "bapatla", 
   "nagari", "narsapur", "tanuku", "yemmiganur", "sullurpeta", "palacole", "parvathipuram", 
   "ramachandrapuram", "samalkot", "sattenapalle", "tadpatri", "tiruvuru", "venkatagiri"]

def arunachalCities : List String :=
  ["itanagar", "naharlagun", "pasighat", "tawang", "bomdila", "tezu", "khonsa", "anini", 
   "dambuk", "miao", "roing", "silapathar", "sagalee", "parang", "seppa", "bhalukpong", 
   "changlang", "hawai", "jairampur", "koloriang", "lathao", "mohendraganj", "namsai", 
   "pangin", "phassang", "ramsoh", "saiha", "sakoli", "sakrabaari", "tikabali", "zangla", 
   "zirang", "ziro"]

def assamCities : List String :=
  ["dispur", "guwahati", "dibrugarh", "silchar", "tezpur", "jorhat", "nagaon", "tinsukia", 
   "dhubri", "diphu", "north lakhimpur", "barpeta", "lakhimpur", "nalgonda", "sibsagar", 
   "goalpara", "hailakandi", "dhemaji", "teok", "lumding", "mangaldoi", "marigaon", 
   "narkatiaganj", "sadiya", "udalguri", "badarpur", "bilasipara", "kharupatia", "lanka", 
   "morigaon", "razampur", "sorbhog", "tangla"]

def biharCities : List String :=
  ["patna", "gaya", "bhagalpur", "muzaffarpur", "darbhanga", "begusarai", "chapra", "katihar", 
   "munger", "purnia", "saharsa", "hajipur", "sasaram", "dehri", "aurangabad", "nawada", 
   "jamalpur", "sitamarhi", "danapur", "madhubani", "siwan", "chhapra", "araria", "kishanganj", 
   "madhepura", "arrah", "mokama", "sultanganj"]

def chhattisgarhCities : List String :=
  ["raipur", "bhilai", "korba", "bilaspur", "raigarh", "jagdalpur", "rajnandgaon", "ambikapur", 
   "dhamtari", "chirmiri", "bhatapara", "sakti", "jashpur", "mahasamund", "dantewada", 
   "bijapur", "narayanpur", "kanker", "kondagaon", "sukma", "balod", "baloda bazar", 
   "bemetara", "gariaband", "gaurela pendra marwahi", "kabirdham"]

def goaCities : List String :=
  ["panaji", "margao", "mapusa", "mormugao", "bicholim", "ponda", "sanguem", "canacona", 
   "pale", "quepem", "salcette", "cortalim", "cuncolim", "cunha", "goa velha", "jua", 
   "kharebudr", "majorda", "mardol", "maria"]

def gujaratCities : List String :=
  ["gandhinagar", "ahmedabad", "surat", "vadodara", "rajkot", "bhavnagar", "jamnagar", 
   "nadiad", "veraval", "gandhidham", "bharuch", "junagadh", "bhuj", "navsari", "botad", 
   "dahod", "devbhoomi dwarka", "gir somnath", "kheda", "mehsana", "morbi", "narmada", 
   "panchmahal", "patan", "surendranagar", "tapi", "vadodara", "valsad"]

def haryanaCities : List String :=
  ["chandigarh", "faridabad", "gurgaon", "hisar", "rohtak", "panipat", "karnal", "sonipat", 
   "yamunanagar", "bhiwani", "sirsa", "bahadurgarh", "jind", "thanesar", "kaithal", "palwal", 
   "bawal", "charkhi dadri", "fatehabad", "gohana", "jagadhri", "kalka", "meham", "mewat", 
   "narwana", "narnaul", "narnaund", "panchkula", "pundri", "radaur", "rajgarh", "safidon", 
   "shahbad"]

def himachalCities : List String :=
  ["shimla", "mandi", "solan", "nahan", "bilaspur", "kullu", "dharamshala", "palampur", 
   "baddi", "nagrota", "una", "chamba", "pangi", "lahaul", "spiti", "kangra", "kinnaur", 
   "hamirpur"]

def jharkhandCities : List String :=
  ["ranchi", "jamshedpur", "dhanbad", "bokaro", "hazaribagh", "giridih", "deoghar", "chaibasa", 
   "chatra", "dumka", "gumla", "pakur", "sahebganj", "simdega", "palamu", "latehar", "khunti", 
   "littipara", "madhupur", "mihijam"]

def karnatakaCities : List String :=
  ["bengaluru", "mysore", "mangalore", "hubli", "davanagere", "belgaum", "gulbarga", "bellary", 
   "bijapur", "shimoga", "tumkur", "mandya", "gadag", "raichur", "hassan", "dharmavaram", 
   "chitradurga", "kolar", "udupi", "hospet", "bhatkal", "gokak", "madikeri", "ranibennur", 
   "shahabad", "tarikere"]

def keralaCities : List String :=
  ["thiruvananthapuram", "kochi", "kollam", "kottayam", "palakkad", "alappuzha", "thrissur", 
   "kannur", "kozhikode", "malappuram", "wayanad", "kasaragod", "pathanamthitta", "idukki"]

def madhyaCities : List String :=
  ["bhopal", "indore", "jabalpur", "gwalior", "ujjain", "sagar", "dewas", "satna", "rewa", 
   "morena", "hoshangabad", "bhind", "damoh", "khargone", "mandsaur", "neemuch", "shahdol", 
   "chhindwara", "guna", "tikamgarh", "sehore", "vijaypur", "ashoknagar", "shajapur", "seoni"]

def maharashtraCities : List String :=
  ["mumbai", "pune", "nagpur", "nashik", "aurangabad", "solapur", "thane", "jalgaon", 
   "kolhapur", "amravati", "latur", "sangli", "nanded", "satara", "akola", "parbhani", 
   "malegaon", "osmanabad", "nandurbar", "ahmednagar", "chandrapur", "dhule", "gondia", 
   "hinganghat", "jalna", "khamgaon", "khopoli"]

def manipurCities : List String :=
  ["imphal", "thoubal", "bishnupur", "churachandpur", "senapati", "tamenglong", "ukhrul", 
   "kakching", "kangpokpi", "noney", "phungyar", "tengnoupal"]

def meghalayaCities : List String :=
  ["shillong", "tura", "jowai", "nongstoin", "baghmara", "resubelpara", "williamnagar", 
   "cherrapunji", "mairang", "mawkyrwat", "sohra", "nongpoh"]

def mizoramCities : List String :=
  ["aizawl", "lunglei", "champhai", "kolasib", "serchhip", "mamit", "saiha", "dampa", 
   "hachhek", "tawi", "thenzawl"]

def nagalandCities : List String :=
  ["kohima", "dimapur", "mokokchung", "tuensang", "wokha", "zunheboto", "mon", "phek", 
   "kiphire", "longleng"]

def odishaCities : List String :=
  ["bhubaneswar", "cuttack", "rourkela", "sambalpur", "berhampur", "puri", "balasore", 
   "bhadrak", "baripada", "kendrapara", "anugul", "bargarh", "baleshwar", "balangir", "boudh", 
   "bhawanipatna", "bijapur", "bolangir", "dhenkanal", "jagatsinghpur", "jajpur", "jharsuguda", 
   "kalahandi", "kapoorthala", "kendujhar", "koraput", "malkangiri", "mayurbhanj", 
   "nabarangpur", "nayagarh", "nuapada", "phulbani", "rayagada", "subarnapur", "sundargarh", 
   "tumudibandha"]

def punjabCities : List String :=
  ["chandigarh", "ludhiana", "amritsar", "jalandhar", "patiala", "bathinda", "hoshiarpur", 
   "moga", "mohali", "firozpur", "malerkotla", "mandi", "gobindgarh", "khanna", 
   "fatehgarh sahib", "sangrur", "sunam", "dhuri", "zira", "fazilka", "kharar", "rajpura", 
   "sirhind", "barnala", "jagraon", "kotkapura", "muktsar", "phagwara", "rampura", "tarn", 
   "tarsikka", "dhariwal", "fatehgarh churian", "gurdaspur", "kapurthala", "rupnagar", 
   "sas nagar", "sri muktsar sahib"]

def rajasthanCities : List String :=
  ["jaipur", "jodhpur", "kota", "bikaner", "ajmer", "bhilwara", "alwar", "sikar", 
   "sawai madhopur", "pali", "ganganagar", "bharatpur", "barmer", "tonk", "chittorgarh", 
   "dungarpur", "sri ganganagar", "banswara", "dhaulpur", "dholpur", "karauli", "pratapgarh", 
   "rajsamand", "udaipur", "hanumangarh", "jaisalmer", "jalore", "jhalawar", "jhunjhunu", 
   "nagaur", "pratapgarh", "sirohi", "todalgarh"]

def sikkimCities : List String :=
  ["gangtok", "namchi", "gyalshing", "mangan", "soreng", "rajgung", "rhenock"]

def tamilnaduCities : List String :=
  ["chennai", "coimbatore", "madurai", "tiruchirappalli", "salem", "tirunelveli", "tiruppur", 
   "vellore", "thoothukudi", "erode", "tiruvannamalai", "pollachi", "rajapalayam", 
   "ramanathapuram", "kanchipuram", "nagercoil", "dindigul", "karur", "nagapattinam", 
   "kovilpatti", "karaikudi", "vaniyambadi", "sivakasi", "tiruchengode", "tirupattur", 
   "ranipet", "tindivanam", "udumalaipettai", "virudhachalam", "virudhunagar"]

def telanganaCities : List String :=
  ["hyderabad", "warangal", "nizamabad", "karimnagar", "ramagundam", "khammam", "mahbubnagar", 
   "nalgonda", "suryapet", "miryalaguda", "siddipet", "adilabad", "sangareddy", "sircilla", 
   "peddapalli", "bodhan", "mancherial", "kamareddy", "nirmal", "kotagiri"]

def tripuraCities : List String :=
  ["agartala", "udaipur", "dharmanagar", "pratapgarh", "kailasahar", "belonia", "ampinagar", 
   "khowai", "phuldungri", "jagtial"]

def upCities : List String :=
  ["lucknow", "kanpur", "agra", "varanasi", "meerut", "allahabad", "gorakhpur", "noida", 
   "ghaziabad", "bareilly", "aligarh", "saharanpur", "mathura", "firozabad", "muzaffarnagar", 
   "moradabad", "gwalior", "bhopal", "indore", "jabalpur", "raipur", "bilaspur", "durg", 
   "raigarh", "jagdalpur", "rajnandgaon", "ambikapur", "dhamtari", "chirmiri", "bhatapara"]

def uttarakhandCities : List String :=
  ["dehradun", "haridwar", "rishikesh", "udupi", "haldwani", "kathgodam", "kashipur", 
   "rudrapur", "khatima", "sitarganj", "jaspur", "pauri", "chakrata", "chamoli", "dakpathar", 
   "devprayag", "dhandhera", "dharasu", "dhumak", "dwarahat", "gairsain", "gangaikhera", 
   "gangotri", "gauchar", "gaurikund", "guptkashi", "hardwar", "harsil", "jawalmukhi", 
   "jhandi", "joshimath", "kalsi", "kanalich", "kanda", "karnaprayag", "kashipur", "khirshn", 
   "kotdwar", "laksar", "lalkuan", "lansdowne", "lohardaga", "manali", "mandi", "manglaur", 
   "mukteshwar", "nagla", "nainital", "nandaprayag", "narendranagar", "paddal", "padampur", 
   "pauri", "phata", "pilkha", "pithoragarh", "pratapnagar", "prayag", "purola", "raipur", 
   "raithal", "ranikhet", "roorkee", "rudraprayag", "uttarkashi", "vanspurnagar", "vijaypur", 
   "vikasnagar", "virbhadra", "yamkeshwar", "yamunotri"]

def wbCities : List String :=
  ["kolkata", "siliguri", "durgapur", "asansol", "malda", "raiganj", "kharagpur", "jalpaiguri", 
   "cooch behar", "bankura", "darjeeling", "krishnanagar", "berhampore", "bally", 
   "budge budge", "dhulian", "dankuni", "haldia", "kulti", "kamarhati", "medinipur", 
   "nabadwip", "purulia", "shantipur", "suri", "tamluk", "alipurduar"]

def delhiCities : List String :=
  ["new delhi", "delhi", "north delhi", "south delhi", "east delhi", "west delhi", 
   "central delhi", "north west delhi", "south west delhi", "north east delhi", "shahdara", 
   "new delhi", "palam", "rohini", "pitampura", "karol bagh", "connaught place", 
   "defence colony", "greater kailash", "hauz khas", "karkardooma", "lajpat nagar", 
   "mayur vihar", "narela", "noida", "pandav nagar", "paschim vihar", "rajouri garden", 
   "saket", "vasant kunj", "vishwas nagar", "yamuna vihar"]

def puducherryCities : List String :=
  ["puducherry", "karaikal", "mahe", "yanaon", "pondicherry", "oussudu", "kannigapuram", 
   "thattanchavady", "mannadipet", "mudaliarpet"]

def andamanCities : List String :=
  ["port blair", "car nicobar", "coco island", "havelock island", "interview island", 
   "jerry point", "katchal", "landfall island", "little andaman", "mahiya", "nancowry", 
   "north and middle andaman", "north and south tillanchong", "north sentinel island", 
   "phoenix bay", "ross island", "saddle peak", "south andaman", "swaraj dweep", "tillanchong", 
   "viper island"]

def dnhDiuCities : List String :=
  ["daman", "dadar", "nagar haveli", "silvassa", "dnh", "dnh and dd", "dnh dd", "dnh diu"]

def lakshadweepCities : List String :=
  ["kavaratti", "agatti", "andrott", "bitra", "chethlath", "kadmath", "kalpeni", "kiltan", 
   "minicoy", "muhassar", "pandarani", "thinnakara"]

def ladakhCities : List String :=
  ["leh", "kargil", "drass", "padum", "zanskar", "nubra", "pangong", "tso", "tso kar", 
   "tso moriri", "changthang", "nyoma", "urud"]

/-- `createDefaultCityStateMap`: the built-in city→state table, as its
insertion sequence (later categories overwrite earlier duplicate cities,
as Go map assignment does). -/
def defaultCityStateMap : List (String × String) :=
  andhraCities.map (fun city => (goToLower city, "andhra pradesh")) ++
  arunachalCities.map (fun city => (goToLower city, "arunachal pradesh")) ++
  assamCities.map (fun city => (goToLower city, "assam")) ++
  biharCities.map (fun city => (goToLower city, "bihar")) ++
  chhattisgarhCities.map (fun city => (goToLower city, "chhattisgarh")) ++
  goaCities.map (fun city => (goToLower city, "goa")) ++
  gujaratCities.map (fun city => (goToLower city, "gujarat")) ++
  haryanaCities.map (fun city => (goToLower city, "haryana")) ++
  himachalCities.map (fun city => (goToLower city, "himachal pradesh")) ++
  jharkhandCities.map (fun city => (goToLower city, "jharkhand")) ++
  karnatakaCities.map (fun city => (goToLower city, "karnataka")) ++
  keralaCities.map (fun city => (goToLower city, "kerala")) ++
  madhyaCities.map (fun city => (goToLower city, "madhya pradesh")) ++
  maharashtraCities.map (fun city => (goToLower city, "maharashtra")) ++
  manipurCities.map (fun city => (goToLower city, "manipur")) ++
  meghalayaCities.map (fun city => (goToLower city, "meghalaya")) ++
  mizoramCities.map (fun city => (goToLower city, "mizoram")) ++
  nagalandCities.map (fun city => (goToLower city, "nagaland")) ++
  odishaCities.map (fun city => (goToLower city, "odisha")) ++
  punjabCities.map (fun city => (goToLower city, "punjab")) ++
  rajasthanCities.map (fun city => (goToLower city, "rajasthan")) ++
  sikkimCities.map (fun city => (goToLower city, "sikkim")) ++
  tamilnaduCities.map (fun city => (goToLower city, "tamil nadu")) ++
  telanganaCities.map (fun city => (goToLower city, "telangana")) ++
  tripuraCities.map (fun city => (goToLower city, "tripura")) ++
  upCities.map (fun city => (goToLower city, "uttar pradesh")) ++
  uttarakhandCities.map (fun city => (goToLower city, "uttarakhand")) ++
  wbCities.map (fun city => (goToLower city, "west bengal")) ++
  delhiCities.map (fun city => (goToLower city, "delhi")) ++
  puducherryCities.map (fun city => (goToLower city, "puducherry")) ++
  andamanCities.map (fun city => (goToLower city, "andaman and nicobar islands")) ++
  dnhDiuCities.map (fun city => (goToLower city, "dadra and nagar haveli and daman and diu")) ++
  lakshadweepCities.map (fun city => (goToLower city, "lakshadweep")) ++
  ladakhCities.map (fun city => (goToLower city, "ladakh"))

/-! ### Flight records (`flight_model.go`) -/

structure Flight where
  airline : String
  flightDate : String
  source : String
  destination : String
  flightClass : String
  duration : Float
  price : Float
  departureTime : String
  arrivalTime : String
  stops : Int
  additionalInfo : String

/-! ### State aggregator (`StateAggregator`) -/

structure StateAggregation where
  stateName : String
  totalFlights : Nat
  incomingFlights : Nat
  outgoingFlights : Nat
  uniqueRoutes : Nat
  airlines : List (String × Nat)
  routeDetails : List (String × Nat)
deriving DecidableEq

/-- The fresh all-zero aggregation Go allocates for a state's first flight,
and also the default aggregation for a valid but dataless state. -/
def zeroAgg (stateName : String) : StateAggregation :=
  ⟨stateName, 0, 0, 0, 0, [], []⟩

/-- Go `m[key]++` on a `map[string]int`: increment, inserting `1` if absent. -/
def bumpCount : List (String × Nat) → String → List (String × Nat)
  | [], key => [(key, 1)]
  | (k, n) :: rest, key =>
    if k = key then (k, n + 1) :: rest else (k, n) :: bumpCount rest key

/-- Ensure an entry exists for `key` (zero-initialised) and mutate it, as the
aggregation loop does through the map entry's pointer. -/
def bumpAgg : List (String × StateAggregation) → String →
    (StateAggregation → StateAggregation) → List (String × StateAggregation)
  | [], key, fn => [(key, fn (zeroAgg key))]
  | (k, a) :: rest, key, fn =>
    if k = key then (k, fn a) :: rest else (k, a) :: bumpAgg rest key fn

/-- Go map lookup on the aggregation mapping (keys are unique, so first
match suffices). -/
def aggLookup (aggs : List (String × StateAggregation)) (k : String) :
    Option StateAggregation :=
  (aggs.find? (fun p => p.1 = k)).map Prod.snd

/-- `routeKey := strings.ToLower(flight.Source + "->" + flight.Destination)`. -/
def routeKeyOf (f : Flight) : String := goToLower (f.source ++ "->" ++ f.destination)

/-- City resolution as the aggregation loop performs it: `GetStateForCity` on
the original name, retried on the `normalizeCityNameForMapping` form. -/
def resolveCity (m : List (String × String)) (city : String) : Option String :=
  match getStateForCity m city with
  | some state => some state
  | none => getStateForCity m (normalizeCityNameForMapping city)

/-- The source-side mutation: outgoing++, total++, airline count++, route
key recorded. -/
def applyOutgoing (f : Flight) (a : StateAggregation) : StateAggregation :=
  { a with outgoingFlights := a.outgoingFlights + 1,
           totalFlights := a.totalFlights + 1,
           airlines := bumpCount a.airlines f.airline,
           routeDetails := bumpCount a.routeDetails (routeKeyOf f) }

/-- The destination-side mutation: incoming++, total++, airline count++,
route key recorded. -/
def applyIncoming (f : Flight) (a : StateAggregation) : StateAggregation :=
  { a with incomingFlights := a.incomingFlights + 1,
           totalFlights := a.totalFlights + 1,
           airlines := bumpCount a.airlines f.airline,
           routeDetails := bumpCount a.routeDetails (routeKeyOf f) }

/-- The canonical state key: `strings.Title(strings.ToLower(state))`. -/
def titleKey (state : String) : String := goTitle (goToLower state)

/-- One iteration of the `ComputeAggregations` flight loop. -/
def stepFlight (m : List (String × String)) (aggs : List (String × StateAggregation))
    (f : Flight) : List (String × StateAggregation) :=
  let aggs1 :=
    match resolveCity m f.source with
    | some sourceState => bumpAgg aggs (titleKey sourceState) (applyOutgoing f)
    | none => aggs
  match resolveCity m f.destination with
  | some destState => bumpAgg aggs1 (titleKey destState) (applyIncoming f)
  | none => aggs1

/-- `ComputeAggregations`: fold the flight loop over the store's records, then
set each state's `UniqueRoutes` to the size of its route-key map. -/
def computeAggregations (m : List (String × String)) (flights : List Flight) :
    List (String × StateAggregation) :=
  (flights.foldl (stepFlight m) []).map
    (fun p => (p.1, { p.2 with uniqueRoutes := p.2.routeDetails.length }))

/-- `RefreshAggregations`: recompute from the store's current contents,
discarding the previously stored mapping. -/
def refreshAggregations (m : List (String × String)) (flights : List Flight)
    (_stored : List (String × StateAggregation)) : List (String × StateAggregation) :=
  computeAggregations m flights

/-- `GetAllIndianStates`: the fixed canonical state/union-territory list. -/
def allIndianStates : List String :=
  ["Andhra Pradesh", "Arunachal Pradesh", "Assam", "Bihar", "Chhattisgarh",
   "Goa", "Gujarat", "Haryana", "Himachal Pradesh", "Jharkhand",
   "Karnataka", "Kerala", "Madhya Pradesh", "Maharashtra", "Manipur",
   "Meghalaya", "Mizoram", "Nagaland", "Odisha", "Punjab",
   "Rajasthan", "Sikkim", "Tamil Nadu", "Telangana", "Tripura",
   "Uttar Pradesh", "Uttarakhand", "West Bengal",
   "Delhi", "Puducherry", "Andaman and Nicobar Islands",
   "Dadra and Nagar Haveli and Daman and Diu", "Lakshadweep", "Ladakh"]

/-- `GetAggregationForState`: normalized lookup, then the valid-state scan
that synthesizes a zero-valued aggregation; `none` models `(nil, false)`. -/
def getAggregationForState (aggs : List (String × StateAggregation))
    (stateName : String) : Option StateAggregation :=
  let normalizedState := titleKey stateName
  match aggLookup aggs normalizedState with
  | some agg => some agg
  | none =>
    match allIndianStates.find? (fun validState =>
        goEqualFold validState stateName ||
        goEqualFold (titleKey validState) normalizedState) with
    | some validState => some (zeroAgg validState)
    | none => none

/-- `GetTopAirlinesForState`: the full airline-count map of the state's
aggregation (copied); the `limit` parameter is accepted but unused. -/
def getTopAirlinesForState (aggs : List (String × StateAggregation))
    (stateName : String) (_limit : Int) : Option (List (String × Nat)) :=
  match getAggregationForState aggs stateName with
  | none => none
  | some agg => some (agg.airlines.map (fun kv => kv))

/-! ### Record store's per-state counter (`flight_data_service.go`) -/

/-- `GetFlightCountByState`: one pass over the records; a record counts once
when its source resolves to the state, else once when its destination does. -/
def getFlightCountByState (m : List (String × String)) (flights : List Flight)
    (state : String) : Nat :=
  let stateLower := goToLower state
  flights.foldl (fun count f =>
    match getStateForCity m f.source with
    | some sourceState =>
      if goToLower sourceState = stateLower then count + 1
      else
        match getStateForCity m f.destination with
        | some destState => if goToLower destState = stateLower then count + 1 else count
        | none => count
    | none =>
      match getStateForCity m f.destination with
      | some destState => if goToLower destState = stateLower then count + 1 else count
      | none => count) 0

/-! ### HTTP handlers (`state_handlers.go`) -/

/-- Go `strings.Split(s, " ")` (empty fields preserved). -/
def splitOnSpaceAux : List Char → List Char → List (List Char)
  | [], acc => [acc.reverse]
  | c :: cs, acc =>
    if c = ' ' then acc.reverse :: splitOnSpaceAux cs [] else splitOnSpaceAux cs (c :: acc)

def goSplitOnSpace (s : String) : List String :=
  (splitOnSpaceAux s.data []).map String.mk

/-- Go `strings.ReplaceAll(s, "-", " ")` (single-character pattern). -/
def goReplaceDashWithSpace (s : String) : String :=
  ⟨s.data.map (fun c => if c = '-' then ' ' else c)⟩

/-- `normalizeStateName`: kebab-case slug → title case, with "and"/"or"
forced lowercase. -/
def normalizeStateName (state : String) : String :=
  let state1 := goReplaceDashWithSpace state
  let state2 := goTitle state1
  let words := goSplitOnSpace state2
  let words := words.map (fun word =>
    let lowerWord := goToLower word
    if lowerWord = "and" ∨ lowerWord = "or" then lowerWord else word)
  String.intercalate " " words

structure StateDetailResponse where
  state : String
  totalFlights : Nat
  incomingFlights : Nat
  outgoingFlights : Nat
  routes : Nat
  airlines : List String
deriving DecidableEq

/-- `GetStateDetail`: normalize the slug, query the aggregator (retrying with
the raw parameter), and shape the response; `none` models the 404. -/
def getStateDetail (aggs : List (String × StateAggregation))
    (stateParam : String) : Option StateDetailResponse :=
  let normalizedState := normalizeStateName stateParam
  let found :=
    match getAggregationForState aggs normalizedState with
    | some agg => some agg
    | none => getAggregationForState aggs stateParam
  found.map (fun agg =>
    ⟨agg.stateName, agg.totalFlights, agg.incomingFlights, agg.outgoingFlights,
     agg.uniqueRoutes, agg.airlines.map Prod.fst⟩)

/-- `GetStateList`: one `{state, totalFlights}` summary per canonical state,
in enumeration order, defaulting to 0 without data. -/
def getStateList (aggs : List (String × StateAggregation)) : List (String × Nat) :=
  allIndianStates.foldl (fun acc stateName =>
    match aggLookup aggs (titleKey stateName) with
    | some agg => acc ++ [(stateName, agg.totalFlights)]
    | none => acc ++ [(stateName, 0)]) []

/-! ### Association-list lemmas -/

theorem aggLookup_bumpAgg_self (aggs : List (String × StateAggregation)) (key : String)
    (fn : StateAggregation → StateAggregation) :
    aggLookup (bumpAgg aggs key fn) key =
      some (fn ((aggLookup aggs key).getD (zeroAgg key))) := by
  induction aggs with
  | nil => simp [bumpAgg, aggLookup]
  | cons p rest ih =>
    obtain ⟨k, a⟩ := p
    by_cases h : k = key
    · subst h
      simp [bumpAgg, aggLookup]
    · simpa [bumpAgg, aggLookup, h] using ih

theorem aggLookup_bumpAgg_ne (aggs : List (String × StateAggregation)) (key k : String)
    (fn : StateAggregation → StateAggregation) (hne : k ≠ key) :
    aggLookup (bumpAgg aggs key fn) k = aggLookup aggs k := by
  induction aggs with
  | nil => simp [bumpAgg, aggLookup, Ne.symm hne]
  | cons p rest ih =>
    obtain ⟨k', a⟩ := p
    by_cases h : k' = key
    · subst h
      simp [bumpAgg, aggLookup, Ne.symm hne]
    · by_cases h2 : k' = k
      · subst h2
        simp [bumpAgg, aggLookup, h]
      · simpa [bumpAgg, aggLookup, h, h2] using ih

theorem bumpAgg_keys (aggs : List (String × StateAggregation)) (key : String)
    (fn : StateAggregation → StateAggregation) :
    (bumpAgg aggs key fn).map Prod.fst =
      if key ∈ aggs.map Prod.fst then aggs.map Prod.fst
      else aggs.map Prod.fst ++ [key] := by
  induction aggs with
  | nil => simp [bumpAgg]
  | cons p rest ih =>
    obtain ⟨k, a⟩ := p
    by_cases h : k = key
    · subst h
      simp [bumpAgg]
    · simp only [bumpAgg, if_neg h, List.map_cons, ih, List.mem_cons]
      by_cases h2 : key ∈ rest.map Prod.fst
      · simp [h2, Ne.symm h]
      · simp [h2, Ne.symm h]

theorem bumpCount_keys (l : List (String × Nat)) (key : String) :
    (bumpCount l key).map Prod.fst =
      if key ∈ l.map Prod.fst then l.map Prod.fst
      else l.map Prod.fst ++ [key] := by
  induction l with
  | nil => simp [bumpCount]
  | cons p rest ih =>
    obtain ⟨k, n⟩ := p
    by_cases h : k = key
    · subst h
      simp [bumpCount]
    · simp only [bumpCount, if_neg h, List.map_cons, ih, List.mem_cons]
      by_cases h2 : key ∈ rest.map Prod.fst
      · simp [h2, Ne.symm h]
      · simp [h2, Ne.symm h]

theorem forall_bumpAgg {P : StateAggregation → Prop}
    {aggs : List (String × StateAggregation)} {key : String}
    {fn : StateAggregation → StateAggregation}
    (h : ∀ e ∈ aggs, P e.2) (hfn : ∀ a, P a → P (fn a)) (hz : P (zeroAgg key)) :
    ∀ e ∈ bumpAgg aggs key fn, P e.2 := by
  induction aggs with
  | nil =>
    intro e he
    have heq : e = (key, fn (zeroAgg key)) := by simpa [bumpAgg] using he
    rw [heq]
    exact hfn _ hz
  | cons p rest ih =>
    obtain ⟨k, a⟩ := p
    intro e he
    by_cases hk : k = key
    · subst hk
      simp only [bumpAgg, if_pos rfl] at he
      rcases List.mem_cons.mp he with h1 | h1
      · rw [h1]
        exact hfn _ (h _ (List.mem_cons_self _ _))
      · exact h _ (List.mem_cons_of_mem _ h1)
    · simp only [bumpAgg, if_neg hk] at he
      rcases List.mem_cons.mp he with h1 | h1
      · rw [h1]
        exact h _ (List.mem_cons_self _ _)
      · exact ih (fun e' he' => h _ (List.mem_cons_of_mem _ he')) _ h1

theorem aggLookup_eq_some_of_mem {aggs : List (String × StateAggregation)}
    {k : String} {a : StateAggregation}
    (hnd : (aggs.map Prod.fst).Nodup) (hmem : (k, a) ∈ aggs) :
    aggLookup aggs k = some a := by
  induction aggs with
  | nil => cases hmem
  | cons p rest ih =>
    obtain ⟨k', a'⟩ := p
    simp only [List.map_cons, List.nodup_cons] at hnd
    rcases List.mem_cons.mp hmem with heq | hmem'
    · obtain ⟨rfl, rfl⟩ := Prod.mk.injEq .. ▸ heq
      simp [aggLookup]
    · have hk : k' ≠ k := by
        intro h
        subst h
        exact hnd.1 (List.mem_map.mpr ⟨(k', a), hmem', rfl⟩)
      simpa [aggLookup, hk] using ih hnd.2 hmem'

theorem mem_of_aggLookup_eq_some {aggs : List (String × StateAggregation)}
    {k : String} {a : StateAggregation} (h : aggLookup aggs k = some a) :
    (k, a) ∈ aggs := by
  induction aggs with
  | nil => simp [aggLookup] at h
  | cons p rest ih =>
    obtain ⟨k', a'⟩ := p
    by_cases hk : k' = k
    · subst hk
      simp only [aggLookup] at h
      rw [List.find?_cons_of_pos _ (by simp)] at h
      simp only [Option.map_some'] at h
      obtain rfl := Option.some.inj h
      exact List.mem_cons_self _ _
    · simp only [aggLookup] at h ⊢
      rw [List.find?_cons_of_neg _ (by simp [hk])] at h
      exact List.mem_cons_of_mem _ (ih h)

/-! ### Counter invariants of the compute pass -/

/-- The counter balance the spec asserts for every aggregation. -/
def balanced (a : StateAggregation) : Prop :=
  a.totalFlights = a.incomingFlights + a.outgoingFlights

theorem balanced_zeroAgg (k : String) : balanced (zeroAgg k) := rfl

theorem balanced_applyOutgoing (f : Flight) (a : StateAggregation) (h : balanced a) :
    balanced (applyOutgoing f a) := by
  simp only [balanced, applyOutgoing] at h ⊢
  omega

theorem balanced_applyIncoming (f : Flight) (a : StateAggregation) (h : balanced a) :
    balanced (applyIncoming f a) := by
  simp only [balanced, applyIncoming] at h ⊢
  omega

theorem stepFlight_balanced (m : List (String × String)) (f : Flight)
    {aggs : List (String × StateAggregation)} (h : ∀ e ∈ aggs, balanced e.2) :
    ∀ e ∈ stepFlight m aggs f, balanced e.2 := by
  cases hs : resolveCity m f.source with
  | none =>
    cases hd : resolveCity m f.destination with
    | none => simpa [stepFlight, hs, hd] using h
    | some destState =>
      simp only [stepFlight, hs, hd]
      exact forall_bumpAgg h (balanced_applyIncoming f) (balanced_zeroAgg _)
  | some sourceState =>
    cases hd : resolveCity m f.destination with
    | none =>
      simp only [stepFlight, hs, hd]
      exact forall_bumpAgg h (balanced_applyOutgoing f) (balanced_zeroAgg _)
    | some destState =>
      simp only [stepFlight, hs, hd]
      exact forall_bumpAgg
        (forall_bumpAgg h (balanced_applyOutgoing f) (balanced_zeroAgg _))
        (balanced_applyIncoming f) (balanced_zeroAgg _)

theorem foldl_stepFlight_balanced (m : List (String × String)) (flights : List Flight) :
    ∀ {aggs : List (String × StateAggregation)}, (∀ e ∈ aggs, balanced e.2) →
      ∀ e ∈ flights.foldl (stepFlight m) aggs, balanced e.2 := by
  induction flights with
  | nil => intro aggs h; simpa using h
  | cons f rest ih =>
    intro aggs h
    exact ih (stepFlight_balanced m f h)

theorem computeAggregations_balanced (m : List (String × String)) (flights : List Flight) :
    ∀ e ∈ computeAggregations m flights, balanced e.2 := by
  intro e he
  simp only [computeAggregations, List.mem_map] at he
  obtain ⟨p, hp, rfl⟩ := he
  have hb := foldl_stepFlight_balanced m flights (by simp) p hp
  simpa [balanced] using hb

/-- **C1.** For every dataset and every state aggregation the compute pass
produces — and for the synthesized zero-valued aggregation
`getAggregationForState` returns for a dataless valid state —
`totalFlights = incomingFlights + outgoingFlights`. -/
theorem c1_totalFlights_balance (m : List (String × String)) (flights : List Flight) :
    (∀ e ∈ computeAggregations m flights,
        e.2.totalFlights = e.2.incomingFlights + e.2.outgoingFlights) ∧
    ∀ s agg, getAggregationForState (computeAggregations m flights) s = some agg →
        agg.totalFlights = agg.incomingFlights + agg.outgoingFlights := by
  refine ⟨computeAggregations_balanced m flights, ?_⟩
  intro s agg h
  rw [getAggregationForState] at h
  cases h1 : aggLookup (computeAggregations m flights) (titleKey s) with
  | some a =>
    rw [h1] at h
    obtain rfl := Option.some.inj h
    exact computeAggregations_balanced m flights _ (mem_of_aggLookup_eq_some h1)
  | none =>
    rw [h1] at h
    cases h2 : allIndianStates.find? (fun validState =>
        goEqualFold validState s || goEqualFold (titleKey validState) (titleKey s)) with
    | some v =>
      rw [h2] at h
      obtain rfl := Option.some.inj h
      rfl
    | none =>
      rw [h2] at h
      cases h

/-- Closed instance of C1 on a concrete dataset and a dataless valid state. -/
theorem c1_totalFlights_balance_witness :
    getAggregationForState (computeAggregations defaultCityStateMap []) "Karnataka" =
      some (zeroAgg "Karnataka") ∧
    (zeroAgg "Karnataka").totalFlights =
      (zeroAgg "Karnataka").incomingFlights + (zeroAgg "Karnataka").outgoingFlights :=
  ⟨by decide, (c1_totalFlights_balance defaultCityStateMap []).2 "Karnataka" _ (by decide)⟩

/-- **C4.** `RefreshAggregations` is idempotent: with the store contents
fixed, recomputing twice stores the same mapping as recomputing once (the
previously stored mapping is discarded wholesale). -/
theorem c4_recompute_idempotent (m : List (String × String)) (flights : List Flight)
    (stored : List (String × StateAggregation)) :
    refreshAggregations m flights (refreshAggregations m flights stored) =
      refreshAggregations m flights stored := rfl

/-- **C8.** "Bombay" in any casing resolves exactly as "Mumbai" does, and
"Madras" resolves to the same state as "Chennai" through the alias table. -/
theorem c8_alias_resolution :
    getStateForCity defaultCityStateMap "Bombay" = getStateForCity defaultCityStateMap "Mumbai" ∧
    getStateForCity defaultCityStateMap "bombay" = getStateForCity defaultCityStateMap "Mumbai" ∧
    getStateForCity defaultCityStateMap "BOMBAY" = getStateForCity defaultCityStateMap "Mumbai" ∧
    getStateForCity defaultCityStateMap "Madras" = getStateForCity defaultCityStateMap "Chennai" := by
  refine ⟨?_, ?_, ?_, ?_⟩ <;> decide

/-- **C9.** `GetTopAirlinesForState` returns the state's full airline-count
mapping for any positive limit: the limit is not applied. -/
theorem c9_limit_unenforced (aggs : List (String × StateAggregation)) (stateName : String)
    (limit : Int) (agg : StateAggregation) (_hpos : 0 < limit)
    (h : getAggregationForState aggs stateName = some agg) :
    getTopAirlinesForState aggs stateName limit = some agg.airlines := by
  rw [getTopAirlinesForState, h]
  simp

/-- Closed instance of C9 at limit 1 on a dataless valid state. -/
theorem c9_limit_unenforced_witness :
    0 < (1 : Int) ∧
    getTopAirlinesForState [] "Goa" 1 = some (zeroAgg "Goa").airlines :=
  ⟨by decide, c9_limit_unenforced [] "Goa" 1 (zeroAgg "Goa") (by decide) (by decide)⟩

/-- The `GetStateList` fold, characterised as a map over the state list. -/
theorem getStateList_foldl (aggs : List (String × StateAggregation))
    (states : List String) (acc : List (String × Nat)) :
    (states.foldl (fun acc stateName =>
      match aggLookup aggs (titleKey stateName) with
      | some agg => acc ++ [(stateName, agg.totalFlights)]
      | none => acc ++ [(stateName, 0)]) acc)
    = acc ++ states.map (fun s =>
        (s, ((aggLookup aggs (titleKey s)).map StateAggregation.totalFlights).getD 0)) := by
  induction states generalizing acc with
  | nil => simp
  | cons s rest ih =>
    cases h : aggLookup aggs (titleKey s) with
    | some agg => simp [List.foldl_cons, h, ih]
    | none => simp [List.foldl_cons, h, ih]

/-- **C6 (amended).** `GetStateList` returns exactly one `{state, totalFlights}`
entry per state of the canonical universe, in enumeration order, defaulting
`totalFlights` to 0 for states without data — but the universe has 34
entries (28 states + 6 union territories), not 29. -/
theorem c6_state_list (aggs : List (String × StateAggregation)) :
    getStateList aggs = allIndianStates.map (fun s =>
        (s, ((aggLookup aggs (titleKey s)).map StateAggregation.totalFlights).getD 0)) ∧
    allIndianStates.length = 34 := by
  constructor
  · simpa [getStateList] using getStateList_foldl aggs allIndianStates []
  · rfl

/-- The canonical state universe has 34 entries, refuting the claimed 29. -/
theorem c6_counterexample :
    (getStateList []).length = 34 ∧ ¬((getStateList []).length = 29) := by
  constructor <;> decide

/-! ### The per-record effect of the compute pass -/

def totalAt (aggs : List (String × StateAggregation)) (k : String) : Nat :=
  ((aggLookup aggs k).map StateAggregation.totalFlights).getD 0

def incomingAt (aggs : List (String × StateAggregation)) (k : String) : Nat :=
  ((aggLookup aggs k).map StateAggregation.incomingFlights).getD 0

def outgoingAt (aggs : List (String × StateAggregation)) (k : String) : Nat :=
  ((aggLookup aggs k).map StateAggregation.outgoingFlights).getD 0

/-- A record whose two endpoints resolve to the same state bumps that state's
incoming and outgoing counters once each, so its total twice. -/
theorem stepFlight_same_state (m : List (String × String))
    (aggs : List (String × StateAggregation)) (f : Flight) (st : String)
    (hs : getStateForCity m f.source = some st)
    (hd : getStateForCity m f.destination = some st) :
    totalAt (stepFlight m aggs f) (titleKey st) = totalAt aggs (titleKey st) + 2 ∧
    incomingAt (stepFlight m aggs f) (titleKey st) = incomingAt aggs (titleKey st) + 1 ∧
    outgoingAt (stepFlight m aggs f) (titleKey st) = outgoingAt aggs (titleKey st) + 1 := by
  have hrs : resolveCity m f.source = some st := by rw [resolveCity, hs]
  have hrd : resolveCity m f.destination = some st := by rw [resolveCity, hd]
  have h2 := aggLookup_bumpAgg_self (bumpAgg aggs (titleKey st) (applyOutgoing f))
    (titleKey st) (applyIncoming f)
  rw [aggLookup_bumpAgg_self aggs (titleKey st) (applyOutgoing f)] at h2
  simp only [stepFlight, hrs, hrd, totalAt, incomingAt, outgoingAt, h2]
  cases haggs : aggLookup aggs (titleKey st) <;>
    simp [haggs, applyIncoming, applyOutgoing, zeroAgg]

/-- **C5.** A flight record whose source and destination cities resolve to the
same state increments that state's incoming and outgoing counters by one
each — no self-route suppression — so its total rises by two. -/
theorem c5_same_state_double_count (m : List (String × String))
    (aggs : List (String × StateAggregation)) (f : Flight) (st : String)
    (hs : getStateForCity m f.source = some st)
    (hd : getStateForCity m f.destination = some st) :
    incomingAt (stepFlight m aggs f) (titleKey st) = incomingAt aggs (titleKey st) + 1 ∧
    outgoingAt (stepFlight m aggs f) (titleKey st) = outgoingAt aggs (titleKey st) + 1 ∧
    totalAt (stepFlight m aggs f) (titleKey st) = totalAt aggs (titleKey st) + 2 := by
  obtain ⟨h1, h2, h3⟩ := stepFlight_same_state m aggs f st hs hd
  exact ⟨h2, h3, h1⟩

/-- The spec's own same-state example: a Mumbai→Pune record. -/
def mumbaiPuneFlight : Flight :=
  ⟨"IndiGo", "", "Mumbai", "Pune", "", 0, 0, "", "", 0, ""⟩

/-- Closed instance of C5 on the Mumbai→Pune record. -/
theorem c5_same_state_double_count_witness :
    getStateForCity defaultCityStateMap mumbaiPuneFlight.source = some "maharashtra" ∧
    getStateForCity defaultCityStateMap mumbaiPuneFlight.destination = some "maharashtra" ∧
    incomingAt (stepFlight defaultCityStateMap [] mumbaiPuneFlight) (titleKey "maharashtra") = 1 ∧
    outgoingAt (stepFlight defaultCityStateMap [] mumbaiPuneFlight) (titleKey "maharashtra") = 1 ∧
    totalAt (stepFlight defaultCityStateMap [] mumbaiPuneFlight) (titleKey "maharashtra") = 2 := by
  have h := c5_same_state_double_count defaultCityStateMap [] mumbaiPuneFlight "maharashtra"
    (by decide) (by decide)
  exact ⟨by decide, by decide, h.1.trans rfl, h.2.1.trans rfl, h.2.2.trans rfl⟩

/-! ### `GetFlightCountByState` as a filter -/

/-- A record touches a state (given lowercased) when its source resolves to
it, or — failing that — its destination does. -/
def flightTouchesState (m : List (String × String)) (f : Flight) (stateLower : String) : Bool :=
  (match getStateForCity m f.source with
   | some sourceState => goToLower sourceState == stateLower
   | none => false) ||
  (match getStateForCity m f.destination with
   | some destState => goToLower destState == stateLower
   | none => false)

theorem getFlightCountByState_foldl (m : List (String × String)) (sl : String)
    (fs : List Flight) (n : Nat) :
    (fs.foldl (fun count f =>
      match getStateForCity m f.source with
      | some sourceState =>
        if goToLower sourceState = sl then count + 1
        else
          match getStateForCity m f.destination with
          | some destState => if goToLower destState = sl then count + 1 else count
          | none => count
      | none =>
        match getStateForCity m f.destination with
        | some destState => if goToLower destState = sl then count + 1 else count
        | none => count) n)
    = n + (fs.filter (fun f => flightTouchesState m f sl)).length := by
  induction fs generalizing n with
  | nil => simp
  | cons f rest ih =>
    rw [List.foldl_cons, List.filter_cons]
    have step : ∀ b : Bool, flightTouchesState m f sl = b →
        (∀ hacc, (rest.filter (fun f => flightTouchesState m f sl)).length = hacc →
          n + (if flightTouchesState m f sl = true
                then f :: rest.filter (fun f => flightTouchesState m f sl)
                else rest.filter (fun f => flightTouchesState m f sl)).length
            = n + (if b then hacc + 1 else hacc)) := by
      intro b hb hacc hlen
      cases b <;> simp [hb, hlen]
    cases hs : getStateForCity m f.source with
    | some s1 =>
      by_cases h1 : goToLower s1 = sl
      · have hcond : flightTouchesState m f sl = true := by
          simp [flightTouchesState, hs, h1]
        simp only [hs]
        rw [if_pos h1, ih, step true hcond _ rfl]
        simp
        omega
      · cases hd : getStateForCity m f.destination with
        | some s2 =>
          by_cases h2 : goToLower s2 = sl
          · have hcond : flightTouchesState m f sl = true := by
              simp [flightTouchesState, hs, hd, h2]
            simp only [hs, hd]
            rw [if_neg h1, if_pos h2, ih, step true hcond _ rfl]
            simp
            omega
          · have hcond : flightTouchesState m f sl = false := by
              simp [flightTouchesState, hs, hd, h1, h2]
            simp only [hs, hd]
            rw [if_neg h1, if_neg h2, ih, step false hcond _ rfl]
            simp
        | none =>
          have hcond : flightTouchesState m f sl = false := by
            simp [flightTouchesState, hs, hd, h1]
          simp only [hs, hd]
          rw [if_neg h1, ih, step false hcond _ rfl]
          simp
    | none =>
      cases hd : getStateForCity m f.destination with
      | some s2 =>
        by_cases h2 : goToLower s2 = sl
        · have hcond : flightTouchesState m f sl = true := by
            simp [flightTouchesState, hs, hd, h2]
          simp only [hs, hd]
          rw [if_pos h2, ih, step true hcond _ rfl]
          simp
          omega
        · have hcond : flightTouchesState m f sl = false := by
            simp [flightTouchesState, hs, hd, h2]
          simp only [hs, hd]
          rw [if_neg h2, ih, step false hcond _ rfl]
          simp
      | none =>
        have hcond : flightTouchesState m f sl = false := by
          simp [flightTouchesState, hs, hd]
        simp only [hs, hd]
        rw [ih, step false hcond _ rfl]
        simp

/-- **C10.** The record store's `GetFlightCountByState` counts each record at
most once (source match wins; the destination only counts when the source
does not match), so a record with both endpoints in state S adds 1 there
while the aggregator's compute pass adds 2 to S's `totalFlights`. -/
theorem c10_store_count_vs_aggregator (m : List (String × String)) :
    (∀ flights state, getFlightCountByState m flights state =
        (flights.filter (fun f => flightTouchesState m f (goToLower state))).length) ∧
    ∀ aggs f st state, getStateForCity m f.source = some st →
        getStateForCity m f.destination = some st →
        goToLower state = goToLower st →
        getFlightCountByState m [f] state = 1 ∧
        totalAt (stepFlight m aggs f) (titleKey st) = totalAt aggs (titleKey st) + 2 := by
  have hfilter : ∀ flights state, getFlightCountByState m flights state =
      (flights.filter (fun f => flightTouchesState m f (goToLower state))).length := by
    intro flights state
    simpa [getFlightCountByState] using
      getFlightCountByState_foldl m (goToLower state) flights 0
  refine ⟨hfilter, ?_⟩
  intro aggs f st state hs hd hsl
  constructor
  · rw [hfilter [f] state, List.filter_cons]
    have : flightTouchesState m f (goToLower state) = true := by
      simp [flightTouchesState, hs, hsl.symm]
    simp [this]
  · exact (stepFlight_same_state m aggs f st hs hd).1

/-- Closed instance of C10 on the Mumbai→Pune record. -/
theorem c10_store_count_vs_aggregator_witness :
    getFlightCountByState defaultCityStateMap [mumbaiPuneFlight] "Maharashtra" = 1 ∧
    totalAt (stepFlight defaultCityStateMap [] mumbaiPuneFlight) (titleKey "maharashtra") = 2 := by
  have h := (c10_store_count_vs_aggregator defaultCityStateMap).2 [] mumbaiPuneFlight
    "maharashtra" "Maharashtra" (by decide) (by decide) (by decide)
  exact ⟨h.1, h.2.trans rfl⟩

/-! ### Valid-state lookup (`GetAggregationForState`) -/

theorem goToLower_titleKey (x : String) : goToLower (titleKey x) = goToLower x :=
  goToLower_goTitle_goToLower x

theorem validState_cond_iff (v s : String) :
    (goEqualFold v s || goEqualFold (titleKey v) (titleKey s)) = true ↔
      goToLower v = goToLower s := by
  simp [goEqualFold, goToLower_titleKey]

/-- **C3.** Every canonical state name, in any casing, is found by
`GetAggregationForState` — synthesized as a zero-valued aggregation when the
mapping holds no data for it — while a name matching no canonical state and
absent from the mapping (whose keys are stored title-cased) is not found. -/
theorem c3_valid_state_lookup (aggs : List (String × StateAggregation)) (s : String) :
    (∀ S ∈ allIndianStates, goToLower s = goToLower S →
        (getAggregationForState aggs s).isSome ∧
        (aggLookup aggs (titleKey s) = none →
          ∃ v ∈ allIndianStates, goToLower v = goToLower s ∧
            getAggregationForState aggs s = some (zeroAgg v))) ∧
    ((∀ S ∈ allIndianStates, goToLower S ≠ goToLower s) →
        aggLookup aggs (titleKey s) = none →
        getAggregationForState aggs s = none) := by
  constructor
  · intro S hS hlow
    cases h1 : aggLookup aggs (titleKey s) with
    | some a =>
      constructor
      · simp [getAggregationForState, h1]
      · intro hnone
        simp [h1] at hnone
    | none =>
      have hsome : (allIndianStates.find? (fun validState =>
          goEqualFold validState s || goEqualFold (titleKey validState) (titleKey s))).isSome := by
        rw [List.find?_isSome]
        exact ⟨S, hS, (validState_cond_iff S s).mpr hlow.symm⟩
      cases h2 : allIndianStates.find? (fun validState =>
          goEqualFold validState s || goEqualFold (titleKey validState) (titleKey s)) with
      | none =>
        rw [h2] at hsome
        cases hsome
      | some v =>
        have hv := List.find?_some h2
        have hvmem := List.mem_of_find?_eq_some h2
        refine ⟨?_, ?_⟩
        · simp [getAggregationForState, h1, h2]
        · intro _
          exact ⟨v, hvmem, (validState_cond_iff v s).mp hv,
            by simp [getAggregationForState, h1, h2]⟩
  · intro hnot h1
    have hfind : (allIndianStates.find? (fun validState =>
        goEqualFold validState s || goEqualFold (titleKey validState) (titleKey s))) = none := by
      rw [List.find?_eq_none]
      intro v hv
      intro hcond
      exact hnot v hv ((validState_cond_iff v s).mp hcond)
    simp [getAggregationForState, h1, hfind]

/-- Closed instance of C3: a cased valid state is found (zero-valued), an
unknown name is not. -/
theorem c3_valid_state_lookup_witness :
    (getAggregationForState [] "GOA").isSome = true ∧
    getAggregationForState [] "Atlantis" = none := by
  constructor
  · exact ((c3_valid_state_lookup [] "GOA").1 "Goa" (by decide) (by decide)).1
  · exact (c3_valid_state_lookup [] "Atlantis").2 (by decide) (by decide)

/-! ### The state name stored in each aggregation entry is its key -/

theorem forall_bumpAgg_entry {Q : String × StateAggregation → Prop}
    {aggs : List (String × StateAggregation)} {key : String}
    {fn : StateAggregation → StateAggregation}
    (h : ∀ e ∈ aggs, Q e) (hfn : ∀ k a, Q (k, a) → Q (k, fn a))
    (hz : Q (key, fn (zeroAgg key))) :
    ∀ e ∈ bumpAgg aggs key fn, Q e := by
  induction aggs with
  | nil =>
    intro e he
    have heq : e = (key, fn (zeroAgg key)) := by simpa [bumpAgg] using he
    rw [heq]
    exact hz
  | cons p rest ih =>
    obtain ⟨k, a⟩ := p
    intro e he
    by_cases hk : k = key
    · subst hk
      simp only [bumpAgg, if_pos rfl] at he
      rcases List.mem_cons.mp he with h1 | h1
      · rw [h1]
        exact hfn _ _ (h _ (List.mem_cons_self _ _))
      · exact h _ (List.mem_cons_of_mem _ h1)
    · simp only [bumpAgg, if_neg hk] at he
      rcases List.mem_cons.mp he with h1 | h1
      · rw [h1]
        exact h _ (List.mem_cons_self _ _)
      · exact ih (fun e' he' => h _ (List.mem_cons_of_mem _ he')) _ h1

theorem stepFlight_stateName (m : List (String × String)) (f : Flight)
    {aggs : List (String × StateAggregation)} (h : ∀ e ∈ aggs, e.2.stateName = e.1) :
    ∀ e ∈ stepFlight m aggs f, e.2.stateName = e.1 := by
  have hout : ∀ (k : String) (a : StateAggregation),
      a.stateName = k → (applyOutgoing f a).stateName = k := by
    intro k a ha
    simpa [applyOutgoing] using ha
  have hin : ∀ (k : String) (a : StateAggregation),
      a.stateName = k → (applyIncoming f a).stateName = k := by
    intro k a ha
    simpa [applyIncoming] using ha
  cases hs : resolveCity m f.source with
  | none =>
    cases hd : resolveCity m f.destination with
    | none => simpa [stepFlight, hs, hd] using h
    | some destState =>
      simp only [stepFlight, hs, hd]
      exact forall_bumpAgg_entry h (fun k a => hin k a) (hin _ _ rfl)
  | some sourceState =>
    cases hd : resolveCity m f.destination with
    | none =>
      simp only [stepFlight, hs, hd]
      exact forall_bumpAgg_entry h (fun k a => hout k a) (hout _ _ rfl)
    | some destState =>
      simp only [stepFlight, hs, hd]
      exact forall_bumpAgg_entry
        (forall_bumpAgg_entry h (fun k a => hout k a) (hout _ _ rfl))
        (fun k a => hin k a) (hin _ _ rfl)

theorem computeAggregations_stateName (m : List (String × String)) (flights : List Flight) :
    ∀ e ∈ computeAggregations m flights, e.2.stateName = e.1 := by
  have hfold : ∀ (fs : List Flight) {aggs : List (String × StateAggregation)},
      (∀ e ∈ aggs, e.2.stateName = e.1) →
      ∀ e ∈ fs.foldl (stepFlight m) aggs, e.2.stateName = e.1 := by
    intro fs
    induction fs with
    | nil => intro aggs h; simpa using h
    | cons f rest ih => intro aggs h; exact ih (stepFlight_stateName m f h)
  intro e he
  simp only [computeAggregations, List.mem_map] at he
  obtain ⟨p, hp, rfl⟩ := he
  simpa using hfold flights (by simp) p hp

theorem aggLookup_computeAggregations_stateName (m : List (String × String))
    (flights : List Flight) (k : String) (a : StateAggregation)
    (h : aggLookup (computeAggregations m flights) k = some a) : a.stateName = k :=
  computeAggregations_stateName m flights _ (mem_of_aggLookup_eq_some h)

/-- A record resolving to Andaman and Nicobar Islands on its destination. -/
def portBlairFlight : Flight :=
  ⟨"IndiGo", "", "Mumbai", "Port Blair", "", 0, 0, "", "", 0, ""⟩

/-- With flight data present, the detail endpoint reports the title-cased
state key "Andaman And Nicobar Islands" (capital "And"), not the claimed
"Andaman and Nicobar Islands". -/
theorem c7_counterexample :
    (getStateDetail (computeAggregations defaultCityStateMap [portBlairFlight])
        "andaman-and-nicobar-islands").map StateDetailResponse.state =
      some "Andaman And Nicobar Islands" ∧
    ¬((getStateDetail (computeAggregations defaultCityStateMap [portBlairFlight])
        "andaman-and-nicobar-islands").map StateDetailResponse.state =
      some "Andaman and Nicobar Islands") := by
  constructor <;> decide

/-- **C7 (amended).** Querying detail with the slug
"andaman-and-nicobar-islands" succeeds for every dataset; the returned name
is "Andaman and Nicobar Islands" (lowercase "and", via `normalizeStateName`
and the canonical list) exactly when the state has no aggregation data, and
is the title-cased aggregation key "Andaman And Nicobar Islands" (capital
"And") when flight data for the state exists. -/
theorem c7_state_detail_name (flights : List Flight) :
    (getStateDetail (computeAggregations defaultCityStateMap flights)
        "andaman-and-nicobar-islands").isSome ∧
    (aggLookup (computeAggregations defaultCityStateMap flights)
        "Andaman And Nicobar Islands" = none →
      (getStateDetail (computeAggregations defaultCityStateMap flights)
          "andaman-and-nicobar-islands").map StateDetailResponse.state =
        some "Andaman and Nicobar Islands") ∧
    ∀ agg, aggLookup (computeAggregations defaultCityStateMap flights)
        "Andaman And Nicobar Islands" = some agg →
      (getStateDetail (computeAggregations defaultCityStateMap flights)
          "andaman-and-nicobar-islands").map StateDetailResponse.state =
        some "Andaman And Nicobar Islands" := by
  cases hl : aggLookup (computeAggregations defaultCityStateMap flights)
      "Andaman And Nicobar Islands" with
  | none =>
    have hg : getAggregationForState (computeAggregations defaultCityStateMap flights)
        "Andaman and Nicobar Islands" = some (zeroAgg "Andaman and Nicobar Islands") := by
      simp only [getAggregationForState,
        show titleKey "Andaman and Nicobar Islands" = "Andaman And Nicobar Islands" from rfl,
        hl]
      rfl
    have hd : getStateDetail (computeAggregations defaultCityStateMap flights)
        "andaman-and-nicobar-islands" =
        some ⟨"Andaman and Nicobar Islands", 0, 0, 0, 0, []⟩ := by
      simp only [getStateDetail,
        show normalizeStateName "andaman-and-nicobar-islands" =
          "Andaman and Nicobar Islands" from rfl, hg]
      rfl
    refine ⟨by simp [hd], fun _ => by simp [hd], fun agg hagg => ?_⟩
    simp at hagg
  | some agg =>
    have hg : getAggregationForState (computeAggregations defaultCityStateMap flights)
        "Andaman and Nicobar Islands" = some agg := by
      simp only [getAggregationForState,
        show titleKey "Andaman and Nicobar Islands" = "Andaman And Nicobar Islands" from rfl,
        hl]
    have hname : agg.stateName = "Andaman And Nicobar Islands" :=
      aggLookup_computeAggregations_stateName _ _ _ _ hl
    have hd : getStateDetail (computeAggregations defaultCityStateMap flights)
        "andaman-and-nicobar-islands" =
        some ⟨agg.stateName, agg.totalFlights, agg.incomingFlights, agg.outgoingFlights,
          agg.uniqueRoutes, agg.airlines.map Prod.fst⟩ := by
      simp only [getStateDetail,
        show normalizeStateName "andaman-and-nicobar-islands" =
          "Andaman and Nicobar Islands" from rfl, hg]
      rfl
    refine ⟨by simp [hd], fun habs => by simp at habs, fun agg' hagg' => ?_⟩
    obtain rfl := Option.some.inj hagg'
    simp [hd, hname]

/-- Closed instances of C7 (amended): dataless and with-data cases. -/
theorem c7_state_detail_name_witness :
    (getStateDetail (computeAggregations defaultCityStateMap [])
        "andaman-and-nicobar-islands").map StateDetailResponse.state =
      some "Andaman and Nicobar Islands" ∧
    (getStateDetail (computeAggregations defaultCityStateMap [portBlairFlight])
        "andaman-and-nicobar-islands").map StateDetailResponse.state =
      some "Andaman And Nicobar Islands" := by
  constructor
  · exact (c7_state_detail_name []).2.1 (by decide)
  · exact (c7_state_detail_name [portBlairFlight]).2.2
      ⟨"Andaman And Nicobar Islands", 1, 1, 0, 1, [("IndiGo", 1)], [("mumbai->port blair", 1)]⟩
      (by decide)

/-! ### Unique-route counting -/

/-- A flight contributes to the aggregation keyed `k` when either endpoint
resolves (with the loop's fallback retry) to a state whose title-cased name
is `k`. -/
def contributesTo (m : List (String × String)) (f : Flight) (k : String) : Bool :=
  (match resolveCity m f.source with
   | some st => titleKey st == k
   | none => false) ||
  (match resolveCity m f.destination with
   | some st => titleKey st == k
   | none => false)

/-- The route keys of the flights contributing to state key `k`, in dataset
order (the spec's measure for `uniqueRoutes`, one entry per flight). -/
def contributedRouteKeys (m : List (String × String)) (flights : List Flight)
    (k : String) : List String :=
  (flights.filter (fun f => contributesTo m f k)).map routeKeyOf

/-- The case-insensitive (source, destination) city pairs of the flights
contributing to state key `k` — the measure claim C2 states verbatim. -/
def contributedCityPairs (m : List (String × String)) (flights : List Flight)
    (k : String) : List (String × String) :=
  (flights.filter (fun f => contributesTo m f k)).map
    (fun f => (goToLower f.source, goToLower f.destination))

/-- The recorded route keys of the aggregation at key `k` (empty when the
state has no entry). -/
def routeKeysAt (aggs : List (String × StateAggregation)) (k : String) : List String :=
  ((aggLookup aggs k).map (fun a => a.routeDetails.map Prod.fst)).getD []

theorem routeKeysAt_bumpAgg_self (aggs : List (String × StateAggregation))
    (key r : String) (fn : StateAggregation → StateAggregation)
    (hfn : ∀ a, (fn a).routeDetails = bumpCount a.routeDetails r) :
    routeKeysAt (bumpAgg aggs key fn) key =
      if r ∈ routeKeysAt aggs key then routeKeysAt aggs key
      else routeKeysAt aggs key ++ [r] := by
  rw [routeKeysAt, aggLookup_bumpAgg_self]
  cases h : aggLookup aggs key with
  | some a =>
    simp only [h, Option.getD_some, Option.map_some', hfn, bumpCount_keys, routeKeysAt]
  | none =>
    simp only [h, Option.getD_none, Option.map_some', Option.map_none', hfn,
      bumpCount_keys, routeKeysAt, zeroAgg]
    simp

theorem routeKeysAt_bumpAgg_ne (aggs : List (String × StateAggregation))
    (key k : String) (fn : StateAggregation → StateAggregation) (h : k ≠ key) :
    routeKeysAt (bumpAgg aggs key fn) k = routeKeysAt aggs k := by
  rw [routeKeysAt, aggLookup_bumpAgg_ne _ _ _ _ h, routeKeysAt]

theorem bumpAgg_keys_nodup (aggs : List (String × StateAggregation)) (key : String)
    (fn : StateAggregation → StateAggregation) (h : (aggs.map Prod.fst).Nodup) :
    ((bumpAgg aggs key fn).map Prod.fst).Nodup := by
  rw [bumpAgg_keys]
  split
  · exact h
  · next h2 => simp [List.nodup_append, h, h2]

theorem mem_ite_append_self {l : List String} {r : String} :
    r ∈ (if r ∈ l then l else l ++ [r]) := by
  split
  · assumption
  · simp

theorem mem_ite_append {l : List String} {r x : String} :
    x ∈ (if r ∈ l then l else l ++ [r]) ↔ x ∈ l ∨ x = r := by
  by_cases hr : r ∈ l
  · rw [if_pos hr]
    constructor
    · exact Or.inl
    · rintro (h | rfl)
      · exact h
      · exact hr
  · rw [if_neg hr]
    simp

theorem nodup_ite_append {l : List String} {r : String} (h : l.Nodup) :
    (if r ∈ l then l else l ++ [r]).Nodup := by
  by_cases hr : r ∈ l
  · rwa [if_pos hr]
  · rw [if_neg hr]
    simp [List.nodup_append, h, hr]

/-- The route-key bookkeeping invariant the compute fold maintains: unique
state keys, duplicate-free recorded route keys, and the recorded route keys
of each state are exactly those contributed by the processed flights. -/
def RouteInv (m : List (String × String)) (processed : List Flight)
    (aggs : List (String × StateAggregation)) : Prop :=
  (aggs.map Prod.fst).Nodup ∧
  ∀ k, (routeKeysAt aggs k).Nodup ∧
    ∀ r, r ∈ routeKeysAt aggs k ↔
      ∃ f ∈ processed, contributesTo m f k = true ∧ routeKeyOf f = r

theorem routeInv_nil (m : List (String × String)) : RouteInv m [] [] := by
  refine ⟨List.nodup_nil, fun k => ⟨List.nodup_nil, fun r => ?_⟩⟩
  simp [routeKeysAt, aggLookup]

theorem routeKeysAt_bump_mem (aggs : List (String × StateAggregation))
    (key r : String) (fn : StateAggregation → StateAggregation)
    (hfn : ∀ a, (fn a).routeDetails = bumpCount a.routeDetails r) (k x : String) :
    x ∈ routeKeysAt (bumpAgg aggs key fn) k ↔
      (x ∈ routeKeysAt aggs k ∨ (k = key ∧ x = r)) := by
  by_cases hkey : k = key
  · subst hkey
    rw [routeKeysAt_bumpAgg_self _ _ _ _ hfn, mem_ite_append]
    simp
  · rw [routeKeysAt_bumpAgg_ne _ _ _ _ hkey]
    simp [hkey]

theorem routeKeysAt_bump_nodup (aggs : List (String × StateAggregation))
    (key r : String) (fn : StateAggregation → StateAggregation)
    (hfn : ∀ a, (fn a).routeDetails = bumpCount a.routeDetails r) (k : String)
    (h : (routeKeysAt aggs k).Nodup) :
    (routeKeysAt (bumpAgg aggs key fn) k).Nodup := by
  by_cases hkey : k = key
  · subst hkey
    rw [routeKeysAt_bumpAgg_self _ _ _ _ hfn]
    exact nodup_ite_append h
  · rwa [routeKeysAt_bumpAgg_ne _ _ _ _ hkey]

theorem applyOutgoing_routeDetails (f : Flight) (a : StateAggregation) :
    (applyOutgoing f a).routeDetails = bumpCount a.routeDetails (routeKeyOf f) := rfl

theorem applyIncoming_routeDetails (f : Flight) (a : StateAggregation) :
    (applyIncoming f a).routeDetails = bumpCount a.routeDetails (routeKeyOf f) := rfl

theorem stepFlight_routeInv (m : List (String × String)) (f : Flight)
    (processed : List Flight) (aggs : List (String × StateAggregation))
    (h : RouteInv m processed aggs) :
    RouteInv m (processed ++ [f]) (stepFlight m aggs f) := by
  obtain ⟨hnd, hk⟩ := h
  have hmem' : ∀ (k r : String),
      (∃ f' ∈ processed ++ [f], contributesTo m f' k = true ∧ routeKeyOf f' = r) ↔
      ((∃ f' ∈ processed, contributesTo m f' k = true ∧ routeKeyOf f' = r) ∨
       (contributesTo m f k = true ∧ routeKeyOf f = r)) := by
    intro k r
    simp [List.mem_append, or_and_right, exists_or]
  cases hs : resolveCity m f.source with
  | none =>
    cases hd : resolveCity m f.destination with
    | none =>
      have hstep : stepFlight m aggs f = aggs := by
        simp [stepFlight, hs, hd]
      have hcontrib : ∀ k, contributesTo m f k = false := by
        intro k
        simp [contributesTo, hs, hd]
      rw [hstep]
      refine ⟨hnd, fun k => ⟨(hk k).1, fun r => ?_⟩⟩
      rw [(hk k).2 r, hmem' k r, hcontrib k]
      simp
    | some st2 =>
      have hstep : stepFlight m aggs f = bumpAgg aggs (titleKey st2) (applyIncoming f) := by
        simp [stepFlight, hs, hd]
      have hcontrib : ∀ k, contributesTo m f k = true ↔ k = titleKey st2 := by
        intro k
        rw [contributesTo, hs, hd]
        simp
        exact eq_comm
      rw [hstep]
      refine ⟨bumpAgg_keys_nodup _ _ _ hnd, fun k => ?_⟩
      refine ⟨routeKeysAt_bump_nodup _ _ _ _ (applyIncoming_routeDetails f) k (hk k).1,
        fun r => ?_⟩
      rw [routeKeysAt_bump_mem _ _ _ _ (applyIncoming_routeDetails f) k r,
        (hk k).2 r, hmem' k r, hcontrib k]
      exact or_congr Iff.rfl (and_congr Iff.rfl eq_comm)
  | some st1 =>
    cases hd : resolveCity m f.destination with
    | none =>
      have hstep : stepFlight m aggs f = bumpAgg aggs (titleKey st1) (applyOutgoing f) := by
        simp [stepFlight, hs, hd]
      have hcontrib : ∀ k, contributesTo m f k = true ↔ k = titleKey st1 := by
        intro k
        rw [contributesTo, hs, hd]
        simp
        exact eq_comm
      rw [hstep]
      refine ⟨bumpAgg_keys_nodup _ _ _ hnd, fun k => ?_⟩
      refine ⟨routeKeysAt_bump_nodup _ _ _ _ (applyOutgoing_routeDetails f) k (hk k).1,
        fun r => ?_⟩
      rw [routeKeysAt_bump_mem _ _ _ _ (applyOutgoing_routeDetails f) k r,
        (hk k).2 r, hmem' k r, hcontrib k]
      exact or_congr Iff.rfl (and_congr Iff.rfl eq_comm)
    | some st2 =>
      have hstep : stepFlight m aggs f =
          bumpAgg (bumpAgg aggs (titleKey st1) (applyOutgoing f)) (titleKey st2)
            (applyIncoming f) := by
        simp [stepFlight, hs, hd]
      have hcontrib : ∀ k, contributesTo m f k = true ↔
          (k = titleKey st1 ∨ k = titleKey st2) := by
        intro k
        rw [contributesTo, hs, hd]
        simp
        exact or_congr eq_comm eq_comm
      rw [hstep]
      refine ⟨bumpAgg_keys_nodup _ _ _ (bumpAgg_keys_nodup _ _ _ hnd), fun k => ?_⟩
      refine ⟨routeKeysAt_bump_nodup _ _ _ _ (applyIncoming_routeDetails f) k
        (routeKeysAt_bump_nodup _ _ _ _ (applyOutgoing_routeDetails f) k (hk k).1),
        fun r => ?_⟩
      rw [routeKeysAt_bump_mem _ _ _ _ (applyIncoming_routeDetails f) k r,
        routeKeysAt_bump_mem _ _ _ _ (applyOutgoing_routeDetails f) k r,
        (hk k).2 r, hmem' k r, hcontrib k, or_assoc]
      apply or_congr Iff.rfl
      constructor
      · rintro (⟨hk1, hr⟩ | ⟨hk2, hr⟩)
        · exact ⟨Or.inl hk1, hr.symm⟩
        · exact ⟨Or.inr hk2, hr.symm⟩
      · rintro ⟨hk12, hr⟩
        rcases hk12 with hk1 | hk2
        · exact Or.inl ⟨hk1, hr.symm⟩
        · exact Or.inr ⟨hk2, hr.symm⟩

theorem foldl_routeInv (m : List (String × String)) (fs : List Flight) :
    ∀ (processed : List Flight) (aggs : List (String × StateAggregation)),
      RouteInv m processed aggs →
      RouteInv m (processed ++ fs) (fs.foldl (stepFlight m) aggs) := by
  induction fs with
  | nil => intro processed aggs h; simpa using h
  | cons f rest ih =>
    intro processed aggs h
    have h2 := ih (processed ++ [f]) (stepFlight m aggs f)
      (stepFlight_routeInv m f processed aggs h)
    simpa using h2

/-- **C2 (amended).** Each computed `uniqueRoutes` equals the number of
distinct lowercased route-key strings `source ++ "->" ++ destination` among
the flights contributing to that state; this coincides with the number of
distinct case-insensitive (source, destination) city pairs except when a
city name embeds the `"->"` separator (see the counterexample). -/
theorem c2_unique_routes (m : List (String × String)) (flights : List Flight) :
    ∀ e ∈ computeAggregations m flights,
      e.2.uniqueRoutes = (contributedRouteKeys m flights e.1).dedup.length := by
  intro e he
  simp only [computeAggregations, List.mem_map] at he
  obtain ⟨p, hp, rfl⟩ := he
  obtain ⟨k, a⟩ := p
  have hinv : RouteInv m flights (flights.foldl (stepFlight m) []) := by
    simpa using foldl_routeInv m flights [] [] (routeInv_nil m)
  obtain ⟨hnd, hk⟩ := hinv
  have hlk : aggLookup (flights.foldl (stepFlight m) []) k = some a :=
    aggLookup_eq_some_of_mem hnd hp
  have hroute : routeKeysAt (flights.foldl (stepFlight m) []) k =
      a.routeDetails.map Prod.fst := by
    rw [routeKeysAt, hlk]
    rfl
  have hmemkeys : ∀ r, r ∈ a.routeDetails.map Prod.fst ↔
      r ∈ contributedRouteKeys m flights k := by
    intro r
    rw [← hroute, (hk k).2 r]
    simp [contributedRouteKeys, List.mem_filter, and_assoc]
  have hperm : (a.routeDetails.map Prod.fst).Perm
      ((contributedRouteKeys m flights k).dedup) := by
    refine (List.perm_ext_iff_of_nodup ?_ (List.nodup_dedup _)).mpr ?_
    · rw [← hroute]
      exact (hk k).1
    · intro r
      rw [hmemkeys r, List.mem_dedup]
  have hlen := hperm.length_eq
  simpa [List.length_map] using hlen

/-- A flight whose cities share a state (route "mumbai->delhi" example). -/
def mumbaiDelhiFlight : Flight :=
  ⟨"IndiGo", "", "Mumbai", "Delhi", "", 0, 0, "", "", 0, ""⟩

/-- Closed instance of C2 (amended) on the one-record Mumbai→Delhi dataset. -/
theorem c2_unique_routes_witness :
    ("Maharashtra",
      (⟨"Maharashtra", 1, 0, 1, 1, [("IndiGo", 1)], [("mumbai->delhi", 1)]⟩ :
        StateAggregation)) ∈ computeAggregations defaultCityStateMap [mumbaiDelhiFlight] ∧
    (⟨"Maharashtra", 1, 0, 1, 1, [("IndiGo", 1)], [("mumbai->delhi", 1)]⟩ :
        StateAggregation).uniqueRoutes =
      (contributedRouteKeys defaultCityStateMap [mumbaiDelhiFlight] "Maharashtra").dedup.length :=
  ⟨by decide,
   c2_unique_routes defaultCityStateMap [mumbaiDelhiFlight]
     ("Maharashtra",
       ⟨"Maharashtra", 1, 0, 1, 1, [("IndiGo", 1)], [("mumbai->delhi", 1)]⟩)
     (by decide)⟩

/-- Two city names embedding "->" produce distinct city pairs but one shared
route key, so `uniqueRoutes` (1) undercounts the distinct pairs (2). -/
def collisionFlightA : Flight :=
  ⟨"IndiGo", "", "mumbai", "pune->pune", "", 0, 0, "", "", 0, ""⟩

def collisionFlightB : Flight :=
  ⟨"AirIndia", "", "mumbai->pune", "pune", "", 0, 0, "", "", 0, ""⟩

/-- C2 as stated fails: Maharashtra records uniqueRoutes = 1 for a dataset
whose contributing flights carry 2 distinct case-insensitive city pairs. -/
theorem c2_counterexample :
    (aggLookup (computeAggregations defaultCityStateMap
        [collisionFlightA, collisionFlightB]) "Maharashtra").map
      StateAggregation.uniqueRoutes = some 1 ∧
    (contributedCityPairs defaultCityStateMap [collisionFlightA, collisionFlightB]
        "Maharashtra").dedup.length = 2 := by
  constructor <;> decide

end FlightDashboard
